import Mathlib

/-
Verification of the query-timing correlation code in
databricks/iceberg_ops/go_sql_driver_test (query_timing.go,
hybrid_timing.go, enhanced_hybrid.go).

The Go code is embedded shallowly: each function's observable control flow
becomes a Lean function over an explicit environment (stubbed HTTP
responses, callback deliveries), and the effects it performs (lookup
attempts, sleeps, timestamp captures) become explicit data so that
retry-schedule and ordering properties can be stated.
-/

namespace GoInt

/-- The constant 2^63, written as a literal so omega can work with it. -/
def twoPow63 : Int := 9223372036854775808

/-- The constant 2^64, written as a literal so omega can work with it. -/
def twoPow64 : Int := 18446744073709551616

/-- Smallest value of Go's int64. -/
def int64Min : Int := -9223372036854775808

/-- Largest value of Go's int64. -/
def int64Max : Int := 9223372036854775807

/-- Reduction of an unbounded integer to Go int64 two's-complement
wrap-around semantics. -/
def wrapInt64 (n : Int) : Int := (n + twoPow63) % twoPow64 - twoPow63

/-- Go int64 subtraction (wraps on overflow). -/
def subInt64 (a b : Int) : Int := wrapInt64 (a - b)

end GoInt

/-- Observable effects of a primary-channel execution, in program order:
recording observed_start (a time.Now call before submission), submitting
the query (db.QueryContext), the call returning a result handle, recording
observed_end (time.Now / time.Since), draining rows (rows.Next/Scan), and
closing the rows. -/
inductive ExecEvent
  | captureStart
  | submitQuery
  | handleReturned
  | captureEnd
  | drainRows
  | closeRows
deriving DecidableEq, Repr

/-- Position of the first occurrence of an event in a trace (length of the
trace when absent). -/
def eventIndex (e : ExecEvent) : List ExecEvent → Nat
  | [] => 0
  | x :: xs => if x = e then 0 else eventIndex e xs + 1

namespace QueryTiming

/-- Abstraction of the HTTP response the /api/2.0/sql/history/queries
endpoint returns to testRESTEndpoint (query_timing.go lines 139-200):
the HTTP status code and, for 200 responses, the body's status field.
The remaining body fields are printed but never branched on. -/
structure RestResponse where
  statusCode : Nat
  status : String
deriving DecidableEq, Repr

/-- Observable outcome of one testRESTEndpoint call (query_timing.go lines
154-200): a 200 response reports the server-side record (including its
status string); any other response is reported as an API error with its
status code. The Go function returns nothing; this is its reported
classification. -/
inductive AttemptOutcome
  | found (status : String)
  | apiError (code : Nat)
deriving DecidableEq, Repr

/-- Embedding of testRESTEndpoint's branch on resp.StatusCode == 200
(query_timing.go line 154). -/
def testRESTEndpoint (resp : RestResponse) : AttemptOutcome :=
  if resp.statusCode = 200 then .found resp.status else .apiError resp.statusCode

/-- Trace of the correlation phase of testUndocumentedAPI: the outcome of
each REST lookup attempt, and the delay in seconds waited before each
attempt. -/
structure CorrelationRun where
  outcomes : List AttemptOutcome
  delaysSec : List Nat
deriving DecidableEq, Repr

/-- Embedding of the correlation phase of testUndocumentedAPI
(query_timing.go lines 98-118): if no query ID was captured, return
immediately with no REST attempt; otherwise call testRESTEndpoint
immediately, again after a 2-second sleep, and a third time after a further
5-second sleep. The three calls are unconditional: the code never inspects
an attempt's outcome to decide whether to continue. `stub` supplies the
HTTP response observed by the n-th attempt. -/
def testUndocumentedAPICorrelation (capturedQueryID : String)
    (stub : Nat → RestResponse) : CorrelationRun :=
  if capturedQueryID = "" then
    { outcomes := [], delaysSec := [] }
  else
    { outcomes := [testRESTEndpoint (stub 1), testRESTEndpoint (stub 2),
                   testRESTEndpoint (stub 3)],
      delaysSec := [0, 2, 5] }

/-- Number of lookup attempts issued in a correlation run. -/
def attemptsMade (r : CorrelationRun) : Nat := r.outcomes.length

/-- Time in seconds (from the start of the correlation phase, ignoring the
duration of the calls themselves) at which each attempt is issued:
cumulative sums of the delays. -/
def issueTimesSec (r : CorrelationRun) : List Nat :=
  List.drop 1 (List.scanl (fun a b => a + b) 0 r.delaysSec)

/-- Modelled from the spec: terminal statuses are SUCCEEDED, FAILED and
CANCELLED (spec glossary; src never branches on the status string). -/
def isTerminalStatus (s : String) : Bool :=
  s = "SUCCEEDED" || s = "FAILED" || s = "CANCELLED"

/-- An attempt observed a FOUND record with terminal status. -/
def attemptFoundTerminal : AttemptOutcome → Bool
  | .found s => isTerminalStatus s
  | .apiError _ => false

/-- Modelled from the spec: correlation_succeeded — true when some lookup
attempt observed a FOUND record with terminal status (spec section 3; the
source reports each attempt individually and computes no aggregate flag). -/
def correlationSucceeded (r : CorrelationRun) : Bool :=
  r.outcomes.any attemptFoundTerminal

/-- An HTTP 404 response: the record was not found. -/
def notFoundResp : RestResponse := { statusCode := 404, status := "" }

/-- Event trace of the primary execution in testUndocumentedAPI
(query_timing.go lines 79-95): startTime is taken before db.QueryContext,
the rows are drained and closed, and only then is executionTime taken via
time.Since — the observed end is recorded after the full drain. -/
def queryTimingTrace : List ExecEvent :=
  [.captureStart, .submitQuery, .handleReturned, .drainRows, .closeRows,
   .captureEnd]

end QueryTiming

namespace HybridTiming

/-- Relevant timing record extracted by GetStatementTiming
(hybrid_timing.go lines 50-60, 120-131). Fields GetStatementTiming never
sets (start/end time, duration, error message) stay at their zero values
and are omitted here. -/
structure TimingInfo where
  queryID : String := ""
  state : String := ""
  rowCount : Nat := 0
  chunkCount : Nat := 0
  columnCount : Nat := 0
deriving DecidableEq, Repr

/-- Abstraction of the response to GET /api/2.0/sql/statements/:id as
parsed by GetStatementTiming (hybrid_timing.go lines 40-47): the HTTP
status code, the statement state, and the optional statement_response
carrying the manifest counts. -/
structure StatementApiResponse where
  statusCode : Nat
  state : String
  hasStatementResponse : Bool
  totalRowCount : Nat
  totalChunkCount : Nat
  columnCount : Nat
deriving DecidableEq, Repr

/-- Embedding of GetStatementTiming (hybrid_timing.go lines 81-132): any
non-200 HTTP status — including 404 not-found — returns an error built
from the status code; a 200 response returns a TimingInfo carrying the
looked-up identifier, the state string, and the manifest counts when a
statement_response is present (zero values otherwise). -/
def GetStatementTiming (statementID : String) (resp : StatementApiResponse) :
    Except String TimingInfo :=
  if resp.statusCode ≠ 200 then
    .error ("API request failed with status " ++ toString resp.statusCode)
  else
    .ok { queryID := statementID
          state := resp.state
          rowCount := if resp.hasStatementResponse then resp.totalRowCount else 0
          chunkCount := if resp.hasStatementResponse then resp.totalChunkCount else 0
          columnCount := if resp.hasStatementResponse then resp.columnCount else 0 }

/-- Trace of the lookup phase of executeHybridApproach: sleeps performed
(milliseconds) and the outcome of each GetStatementTiming call. -/
structure HybridLookupRun where
  sleepsMs : List Nat
  attempts : List (Except String TimingInfo)

/-- Embedding of the lookup phase of executeHybridApproach
(hybrid_timing.go lines 294-317): when a query ID was captured, sleep
500 ms and issue exactly one GetStatementTiming call; when the captured ID
is empty, do nothing (a message is printed and no lookup is attempted). -/
def executeHybridLookupPhase (capturedQueryID : String)
    (resp : StatementApiResponse) : HybridLookupRun :=
  if capturedQueryID ≠ "" then
    { sleepsMs := [500],
      attempts := [GetStatementTiming capturedQueryID resp] }
  else
    { sleepsMs := [], attempts := [] }

/-- A hybrid lookup attempt observed a found record with terminal status. -/
def hybridAttemptSucceeded : Except String TimingInfo → Bool
  | .ok t => QueryTiming.isTerminalStatus t.state
  | .error _ => false

/-- Modelled from the spec: correlation_succeeded for the hybrid flow —
some lookup attempt returned a record with terminal status (the source
prints the record and computes no aggregate flag). -/
def hybridCorrelationSucceeded (r : HybridLookupRun) : Bool :=
  r.attempts.any hybridAttemptSucceeded

/-- Event trace of the primary execution in executeHybridApproach
(hybrid_timing.go lines 259-289): driverStartTime before db.QueryContext,
driverEndTime immediately after it returns the rows handle, then the rows
are drained; rows.Close is deferred to function exit. -/
def goDriverTrace : List ExecEvent :=
  [.captureStart, .submitQuery, .handleReturned, .captureEnd, .drainRows,
   .closeRows]

end HybridTiming

namespace EnhancedHybrid

/-- TimingInfo of enhanced_hybrid.go (lines 74-86). Field defaults are the
Go zero values, so a record literal that omits a field models the Go
struct literal omitting it. Times are represented by durationMs alone. -/
structure TimingInfo where
  method : String := ""
  queryID : String := ""
  statementText : String := ""
  state : String := ""
  durationMs : Int := 0
  rowCount : Nat := 0
  columnCount : Nat := 0
  errorMessage : String := ""
deriving DecidableEq, Repr

/-- Environment of one executeGoDriverApproach run: whether sql.Open
fails, the identifier delivered by the query-ID callback during
db.QueryContext (none if the hook never fires), whether db.QueryContext or
rows.Columns fails, the measured wall-clock duration, and the drained
result shape. -/
structure GoDriverEnv where
  openError : Option String
  callbackId : Option String
  queryError : Option String
  columnsError : Option String
  durationMs : Int
  resultRowCount : Nat
  columnCount : Nat
deriving Repr

/-- Embedding of executeGoDriverApproach (enhanced_hybrid.go lines
289-365). On sql.Open failure only method and errorMessage are set. On
db.QueryContext failure (lines 315-326) the returned TimingInfo carries
the statement text, timing and the error message — its QueryID field is
omitted in the source and therefore stays at the zero value "" even when
the callback delivered an identifier. On rows.Columns failure only method
and errorMessage are set. On success (lines 353-364) the captured query ID,
state COMPLETED, timing, and the drained row/column counts are returned. -/
def executeGoDriverApproach (query : String) (env : GoDriverEnv) : TimingInfo :=
  match env.openError with
  | some e => { method := "GO_DRIVER", errorMessage := e }
  | none =>
    let capturedQueryID := env.callbackId.getD ""
    match env.queryError with
    | some e =>
      { method := "GO_DRIVER"
        statementText := query
        durationMs := env.durationMs
        errorMessage := e }
    | none =>
      match env.columnsError with
      | some e => { method := "GO_DRIVER", errorMessage := e }
      | none =>
        { method := "GO_DRIVER"
          queryID := capturedQueryID
          statementText := query
          state := "COMPLETED"
          durationMs := env.durationMs
          rowCount := env.resultRowCount
          columnCount := env.columnCount }

/-- Embedding of abs (enhanced_hybrid.go lines 397-402) under Go int64
semantics: the negation of a negative argument wraps, so
abs int64Min = int64Min. -/
def abs (x : Int) : Int := if x < 0 then GoInt.wrapInt64 (-x) else x

/-- The duration difference printed by main (enhanced_hybrid.go line 276):
abs(goDriverTiming.DurationMs - restAPITiming.DurationMs), with int64
subtraction. -/
def durationDeltaMs (g r : Int) : Int := abs (GoInt.subInt64 g r)

/-- Modelled from the spec: row_count_agreement as simple equality of the
two row counts (spec section 4.4; main prints the two counts side by side,
enhanced_hybrid.go line 280-281, without computing a boolean). -/
def rowCountAgreement (g r : TimingInfo) : Bool := g.rowCount == r.rowCount

/-- Modelled from the spec: column_count_agreement as simple equality of
the two column counts (spec section 4.4). -/
def columnCountAgreement (g r : TimingInfo) : Bool :=
  g.columnCount == r.columnCount

/-- Event trace of the primary execution in executeGoDriverApproach
(enhanced_hybrid.go lines 311-347): startTime before db.QueryContext,
endTime immediately after it returns the rows handle, then the rows are
drained; rows.Close is deferred. -/
def goDriverTrace : List ExecEvent :=
  [.captureStart, .submitQuery, .handleReturned, .captureEnd, .drainRows,
   .closeRows]

end EnhancedHybrid

/-- wrapInt64 is the identity on values already in int64 range. -/
theorem wrapInt64_eq_self (n : Int)
    (h1 : -9223372036854775808 ≤ n) (h2 : n < 9223372036854775808) :
    GoInt.wrapInt64 n = n := by
  unfold GoInt.wrapInt64 GoInt.twoPow63 GoInt.twoPow64
  rw [Int.emod_eq_of_lt (by omega) (by omega)]
  omega

/-- The embedded abs agrees with the mathematical absolute value away from
int64Min. -/
theorem abs_eq_int_abs (x : Int)
    (h1 : -9223372036854775807 ≤ x) (h2 : x ≤ 9223372036854775807) :
    EnhancedHybrid.abs x = |x| := by
  unfold EnhancedHybrid.abs
  by_cases h : x < 0
  · rw [if_pos h, wrapInt64_eq_self (-x) (by omega) (by omega), abs_of_neg h]
  · rw [if_neg h, abs_of_nonneg (by omega)]

/-- Lookup stub for the C1 scenario: attempt 1 observes 404 (not found),
attempts 2 and 3 observe the record with terminal status SUCCEEDED. -/
def stubFoundOnSecond : Nat → QueryTiming.RestResponse := fun n =>
  if n = 1 then QueryTiming.notFoundResp
  else { statusCode := 200, status := "SUCCEEDED" }

/-- C1 counterexample: with a stub that returns NOT_FOUND on attempt 1 and
FOUND with terminal status on attempt 2, testUndocumentedAPI still issues
3 lookup attempts, not 2 — the loop does not stop after the successful
second attempt. -/
theorem c1_loop_stops_after_two_ce :
    QueryTiming.testRESTEndpoint (stubFoundOnSecond 1) = .apiError 404 ∧
    QueryTiming.attemptFoundTerminal
      (QueryTiming.testRESTEndpoint (stubFoundOnSecond 2)) = true ∧
    QueryTiming.attemptsMade
      (QueryTiming.testUndocumentedAPICorrelation "qid-c1" stubFoundOnSecond)
      ≠ 2 := by
  decide

/-- C1 (amended): the correlation phase of testUndocumentedAPI never stops
early — whenever an identifier was captured it issues exactly 3 lookup
attempts, even when attempt 2 observes FOUND with a terminal status; the
FOUND record is still observed, so correlation succeeded. -/
theorem c1_loop_never_stops_early (id : String)
    (stub : Nat → QueryTiming.RestResponse) (hid : id ≠ "")
    (h2 : QueryTiming.attemptFoundTerminal
      (QueryTiming.testRESTEndpoint (stub 2)) = true) :
    QueryTiming.attemptsMade
      (QueryTiming.testUndocumentedAPICorrelation id stub) = 3 ∧
    QueryTiming.correlationSucceeded
      (QueryTiming.testUndocumentedAPICorrelation id stub) = true := by
  constructor
  · simp [QueryTiming.testUndocumentedAPICorrelation, QueryTiming.attemptsMade,
      hid]
  · simp [QueryTiming.testUndocumentedAPICorrelation,
      QueryTiming.correlationSucceeded, hid, List.any, h2]

/-- C1 witness: the amended theorem instantiated at the C1 stub. -/
theorem c1_loop_never_stops_early_witness :
    QueryTiming.attemptsMade
      (QueryTiming.testUndocumentedAPICorrelation "qid-c1" stubFoundOnSecond)
      = 3 ∧
    QueryTiming.correlationSucceeded
      (QueryTiming.testUndocumentedAPICorrelation "qid-c1" stubFoundOnSecond)
      = true :=
  c1_loop_never_stops_early "qid-c1" stubFoundOnSecond (by decide) (by decide)

/-- C2: every correlation run issues at most 3 lookup attempts; with a
captured identifier and a stub that always returns NOT_FOUND, exactly 3
attempts are issued, the delays before the attempts are 0 s, 2 s and 5 s —
strictly increasing — and correlation did not succeed. -/
theorem c2_retry_loop_bounded_exhaustion (id : String)
    (stub : Nat → QueryTiming.RestResponse) (hid : id ≠ "")
    (hnf : ∀ n, stub n = QueryTiming.notFoundResp) :
    (∀ (id2 : String) (stub2 : Nat → QueryTiming.RestResponse),
      QueryTiming.attemptsMade
        (QueryTiming.testUndocumentedAPICorrelation id2 stub2) ≤ 3) ∧
    QueryTiming.attemptsMade
      (QueryTiming.testUndocumentedAPICorrelation id stub) = 3 ∧
    (QueryTiming.testUndocumentedAPICorrelation id stub).delaysSec
      = [0, 2, 5] ∧
    List.Chain' (· < ·)
      (QueryTiming.testUndocumentedAPICorrelation id stub).delaysSec ∧
    QueryTiming.correlationSucceeded
      (QueryTiming.testUndocumentedAPICorrelation id stub) = false := by
  refine ⟨?_, ?_, ?_, ?_, ?_⟩
  · intro id2 stub2
    by_cases h : id2 = "" <;>
      simp [QueryTiming.testUndocumentedAPICorrelation,
        QueryTiming.attemptsMade, h]
  · simp [QueryTiming.testUndocumentedAPICorrelation,
      QueryTiming.attemptsMade, hid]
  · simp [QueryTiming.testUndocumentedAPICorrelation, hid]
  · simp only [QueryTiming.testUndocumentedAPICorrelation, if_neg hid]
    norm_num [List.chain'_cons, List.chain'_singleton]
  · simp [QueryTiming.testUndocumentedAPICorrelation,
      QueryTiming.correlationSucceeded, hid, hnf,
      QueryTiming.testRESTEndpoint, QueryTiming.notFoundResp,
      QueryTiming.attemptFoundTerminal]

/-- C2 witness: the theorem instantiated at a non-empty identifier and the
constant NOT_FOUND stub. -/
theorem c2_retry_loop_bounded_exhaustion_witness :
    (∀ (id2 : String) (stub2 : Nat → QueryTiming.RestResponse),
      QueryTiming.attemptsMade
        (QueryTiming.testUndocumentedAPICorrelation id2 stub2) ≤ 3) ∧
    QueryTiming.attemptsMade
      (QueryTiming.testUndocumentedAPICorrelation "qid-c2"
        (fun _ => QueryTiming.notFoundResp)) = 3 ∧
    (QueryTiming.testUndocumentedAPICorrelation "qid-c2"
      (fun _ => QueryTiming.notFoundResp)).delaysSec = [0, 2, 5] ∧
    List.Chain' (· < ·)
      (QueryTiming.testUndocumentedAPICorrelation "qid-c2"
        (fun _ => QueryTiming.notFoundResp)).delaysSec ∧
    QueryTiming.correlationSucceeded
      (QueryTiming.testUndocumentedAPICorrelation "qid-c2"
        (fun _ => QueryTiming.notFoundResp)) = false :=
  c2_retry_loop_bounded_exhaustion "qid-c2" (fun _ => QueryTiming.notFoundResp)
    (by decide) (fun _ => rfl)

/-- Lookup stub for the C3 scenario: every attempt fails with HTTP 403, an
auth failure — a fatal, non-404 4xx error. -/
def stubAuthFailure : Nat → QueryTiming.RestResponse := fun _ =>
  { statusCode := 403, status := "" }

/-- C3 counterexample: with a stub whose first attempt fails with a fatal
auth error (HTTP 403), testUndocumentedAPI does not stop after 1 attempt —
3 attempts are issued. -/
theorem c3_fatal_aborts_ce :
    QueryTiming.testRESTEndpoint (stubAuthFailure 1) = .apiError 403 ∧
    QueryTiming.attemptsMade
      (QueryTiming.testUndocumentedAPICorrelation "qid-c3" stubAuthFailure)
      ≠ 1 := by
  decide

/-- C3 (amended): a fatal (non-200, e.g. auth) error on the first attempt
does not abort the loop: all 3 attempts are still issued, and the first
attempt's outcome is reported as an API error with its status code rather
than as a distinguished fatal abort. -/
theorem c3_fatal_error_does_not_abort (id : String)
    (stub : Nat → QueryTiming.RestResponse) (hid : id ≠ "")
    (hfatal : (stub 1).statusCode ≠ 200) :
    QueryTiming.attemptsMade
      (QueryTiming.testUndocumentedAPICorrelation id stub) = 3 ∧
    (QueryTiming.testUndocumentedAPICorrelation id stub).outcomes.head?
      = some (.apiError (stub 1).statusCode) := by
  constructor
  · simp [QueryTiming.testUndocumentedAPICorrelation,
      QueryTiming.attemptsMade, hid]
  · simp [QueryTiming.testUndocumentedAPICorrelation, hid,
      QueryTiming.testRESTEndpoint, hfatal]

/-- C3 witness: the amended theorem instantiated at the auth-failure stub. -/
theorem c3_fatal_error_does_not_abort_witness :
    QueryTiming.attemptsMade
      (QueryTiming.testUndocumentedAPICorrelation "qid-c3" stubAuthFailure)
      = 3 ∧
    (QueryTiming.testUndocumentedAPICorrelation "qid-c3"
      stubAuthFailure).outcomes.head?
      = some (.apiError (stubAuthFailure 1).statusCode) :=
  c3_fatal_error_does_not_abort "qid-c3" stubAuthFailure (by decide) (by decide)

/-- C4: with an empty captured identifier, both correlation flows
short-circuit — testUndocumentedAPI issues zero REST attempts and waits no
delay, executeHybridApproach issues zero GetStatementTiming attempts and
performs no sleep, and correlation did not succeed in either flow. -/
theorem c4_empty_identifier_short_circuits :
    (∀ stub : Nat → QueryTiming.RestResponse,
      QueryTiming.testUndocumentedAPICorrelation "" stub
        = { outcomes := [], delaysSec := [] }) ∧
    (∀ resp : HybridTiming.StatementApiResponse,
      (HybridTiming.executeHybridLookupPhase "" resp).attempts = [] ∧
      (HybridTiming.executeHybridLookupPhase "" resp).sleepsMs = []) ∧
    (∀ stub : Nat → QueryTiming.RestResponse,
      QueryTiming.correlationSucceeded
        (QueryTiming.testUndocumentedAPICorrelation "" stub) = false) ∧
    (∀ resp : HybridTiming.StatementApiResponse,
      HybridTiming.hybridCorrelationSucceeded
        (HybridTiming.executeHybridLookupPhase "" resp) = false) := by
  refine ⟨fun stub => rfl, fun resp => ⟨rfl, rfl⟩, fun stub => rfl,
    fun resp => rfl⟩

/-- A 404 not-found response of the statement lookup API. -/
def respNotFound404 : HybridTiming.StatementApiResponse :=
  { statusCode := 404, state := "", hasStatementResponse := false,
    totalRowCount := 0, totalChunkCount := 0, columnCount := 0 }

/-- C5 counterexample: a 404 not-found response makes GetStatementTiming
return an error, not a normal NOT_FOUND value — not-found is treated as a
fault, indistinguishable from any other non-200 failure. -/
theorem c5_not_found_is_error_ce :
    HybridTiming.GetStatementTiming "stmt-c5" respNotFound404
      = .error "API request failed with status 404" :=
  rfl

/-- C5 (amended): GetStatementTiming distinguishes only two outcomes, not
three: an HTTP 200 response yields the looked-up record (whose state
string may be terminal or non-terminal), and every non-200 response —
including 404 not-found — yields an error return built from the status
code. -/
theorem c5_lookup_two_outcomes (id : String)
    (resp : HybridTiming.StatementApiResponse) :
    (resp.statusCode = 200 →
      HybridTiming.GetStatementTiming id resp
        = .ok { queryID := id
                state := resp.state
                rowCount :=
                  if resp.hasStatementResponse then resp.totalRowCount else 0
                chunkCount :=
                  if resp.hasStatementResponse then resp.totalChunkCount else 0
                columnCount :=
                  if resp.hasStatementResponse then resp.columnCount else 0 }) ∧
    (resp.statusCode ≠ 200 →
      HybridTiming.GetStatementTiming id resp
        = .error ("API request failed with status "
            ++ toString resp.statusCode)) := by
  constructor
  · intro h
    simp [HybridTiming.GetStatementTiming, h]
  · intro h
    simp [HybridTiming.GetStatementTiming, h]

/-- C5 witness: the amended theorem instantiated at the 404 response. -/
theorem c5_lookup_two_outcomes_witness :
    HybridTiming.GetStatementTiming "stmt-c5w" respNotFound404
      = .error ("API request failed with status "
          ++ toString respNotFound404.statusCode) :=
  (c5_lookup_two_outcomes "stmt-c5w" respNotFound404).2 (by decide)

/-- Environment for the C6 scenario: the query-ID callback delivered an
identifier, then db.QueryContext failed with a transport error. -/
def envQueryFailedAfterCapture : EnhancedHybrid.GoDriverEnv :=
  { openError := none
    callbackId := some "01f07d87-5224-1a4f"
    queryError := some "transport error"
    columnsError := none
    durationMs := 12
    resultRowCount := 0
    columnCount := 0 }

/-- C6 counterexample: although the hook delivered identifier
01f07d87-5224-1a4f before the transport failure, the error-path record of
executeGoDriverApproach carries the empty identifier, not the captured
one — the QueryID field is omitted on that path in the source. -/
theorem c6_error_path_identifier_ce :
    envQueryFailedAfterCapture.callbackId = some "01f07d87-5224-1a4f" ∧
    (EnhancedHybrid.executeGoDriverApproach "SELECT 1"
      envQueryFailedAfterCapture).errorMessage = "transport error" ∧
    (EnhancedHybrid.executeGoDriverApproach "SELECT 1"
      envQueryFailedAfterCapture).queryID = "" := by
  refine ⟨rfl, rfl, rfl⟩

/-- C6 (amended): when db.QueryContext fails, executeGoDriverApproach
returns a record carrying the error message, the statement text and the
measured duration, but its identifier field is the empty string even when
the capture hook had already delivered an identifier — the captured
identifier is not propagated on the error path. -/
theorem c6_error_path_drops_identifier (query : String)
    (env : EnhancedHybrid.GoDriverEnv) (e : String)
    (hopen : env.openError = none) (hq : env.queryError = some e) :
    (EnhancedHybrid.executeGoDriverApproach query env).queryID = "" ∧
    (EnhancedHybrid.executeGoDriverApproach query env).errorMessage = e ∧
    (EnhancedHybrid.executeGoDriverApproach query env).statementText = query ∧
    (EnhancedHybrid.executeGoDriverApproach query env).durationMs
      = env.durationMs := by
  simp [EnhancedHybrid.executeGoDriverApproach, hopen, hq]

/-- C6 witness: the amended theorem instantiated at the environment whose
hook delivered an identifier before the transport failure. -/
theorem c6_error_path_drops_identifier_witness :
    (EnhancedHybrid.executeGoDriverApproach "SELECT 1"
      envQueryFailedAfterCapture).queryID = "" ∧
    (EnhancedHybrid.executeGoDriverApproach "SELECT 1"
      envQueryFailedAfterCapture).errorMessage = "transport error" ∧
    (EnhancedHybrid.executeGoDriverApproach "SELECT 1"
      envQueryFailedAfterCapture).statementText = "SELECT 1" ∧
    (EnhancedHybrid.executeGoDriverApproach "SELECT 1"
      envQueryFailedAfterCapture).durationMs
      = envQueryFailedAfterCapture.durationMs :=
  c6_error_path_drops_identifier "SELECT 1" envQueryFailedAfterCapture
    "transport error" rfl rfl

/-- C7 counterexample: the correlation loop of testUndocumentedAPI accepts
no deadline and never aborts: in the run matching the claim's scenario the
second attempt is issued at 2 seconds — after a 1-second deadline would
already have expired — and a third attempt follows at 7 seconds. -/
theorem c7_deadline_abort_ce :
    (QueryTiming.issueTimesSec
      (QueryTiming.testUndocumentedAPICorrelation "qid-c7"
        (fun _ => QueryTiming.notFoundResp))).get? 1 = some 2 ∧
    ¬ (2 : Nat) ≤ 1 ∧
    QueryTiming.attemptsMade
      (QueryTiming.testUndocumentedAPICorrelation "qid-c7"
        (fun _ => QueryTiming.notFoundResp)) = 3 := by
  decide

/-- C7 (amended): the flow consults no caller-supplied deadline: whenever
an identifier was captured, the loop unconditionally issues its three
attempts at 0, 2 and 7 seconds, regardless of the lookup outcomes, and
never reports a deadline abort. -/
theorem c7_no_deadline_full_schedule (id : String)
    (stub : Nat → QueryTiming.RestResponse) (hid : id ≠ "") :
    QueryTiming.issueTimesSec
      (QueryTiming.testUndocumentedAPICorrelation id stub) = [0, 2, 7] ∧
    QueryTiming.attemptsMade
      (QueryTiming.testUndocumentedAPICorrelation id stub) = 3 := by
  constructor
  · simp only [QueryTiming.testUndocumentedAPICorrelation, if_neg hid]
    rfl
  · simp [QueryTiming.testUndocumentedAPICorrelation,
      QueryTiming.attemptsMade, hid]

/-- C7 witness: the amended theorem instantiated at a captured identifier
and the constant NOT_FOUND stub. -/
theorem c7_no_deadline_full_schedule_witness :
    QueryTiming.issueTimesSec
      (QueryTiming.testUndocumentedAPICorrelation "qid-c7w"
        (fun _ => QueryTiming.notFoundResp)) = [0, 2, 7] ∧
    QueryTiming.attemptsMade
      (QueryTiming.testUndocumentedAPICorrelation "qid-c7w"
        (fun _ => QueryTiming.notFoundResp)) = 3 :=
  c7_no_deadline_full_schedule "qid-c7w" (fun _ => QueryTiming.notFoundResp)
    (by decide)

/-- Primary-channel record for the C8 scenario (HYBRID_FINDINGS.md: the Go
driver measured 553 ms for a 1-row, 2-column result). -/
def primaryRecordC8 : EnhancedHybrid.TimingInfo :=
  { method := "GO_DRIVER", queryID := "qid-c8", state := "COMPLETED",
    durationMs := 553, rowCount := 1, columnCount := 2 }

/-- Telemetry-side record for the C8 scenario: 115 ms, 1 row, 2 columns. -/
def telemetryRecordC8 : EnhancedHybrid.TimingInfo :=
  { method := "REST_API", queryID := "stmt-c8", state := "SUCCEEDED",
    durationMs := 115, rowCount := 1, columnCount := 2 }

/-- Statement-lookup response for the C8 scenario: found on the first (and
only) attempt, terminal status SUCCEEDED, 1 row and 2 columns. -/
def respFoundC8 : HybridTiming.StatementApiResponse :=
  { statusCode := 200, state := "SUCCEEDED", hasStatementResponse := true,
    totalRowCount := 1, totalChunkCount := 1, columnCount := 2 }

/-- C8: for durations in the range Go's Duration.Milliseconds can produce,
the printed difference abs(a - b) is exactly the mathematical absolute
difference and is non-negative; in the concrete scenario — primary 553 ms,
telemetry 115 ms, both sides 1 row and 2 columns, record found on the
first lookup attempt — the delta is 438 ms, both agreements hold, exactly
1 correlation attempt was made and correlation succeeded. -/
theorem c8_duration_delta_and_scenario (g r : Int)
    (hg1 : -9223372036854 ≤ g) (hg2 : g ≤ 9223372036854)
    (hr1 : -9223372036854 ≤ r) (hr2 : r ≤ 9223372036854) :
    EnhancedHybrid.durationDeltaMs g r = |g - r| ∧
    0 ≤ EnhancedHybrid.durationDeltaMs g r ∧
    EnhancedHybrid.durationDeltaMs primaryRecordC8.durationMs
      telemetryRecordC8.durationMs = 438 ∧
    EnhancedHybrid.rowCountAgreement primaryRecordC8 telemetryRecordC8
      = true ∧
    EnhancedHybrid.columnCountAgreement primaryRecordC8 telemetryRecordC8
      = true ∧
    (HybridTiming.executeHybridLookupPhase "qid-c8" respFoundC8).attempts.length
      = 1 ∧
    HybridTiming.hybridCorrelationSucceeded
      (HybridTiming.executeHybridLookupPhase "qid-c8" respFoundC8) = true := by
  have hdelta : EnhancedHybrid.durationDeltaMs g r = |g - r| := by
    unfold EnhancedHybrid.durationDeltaMs GoInt.subInt64
    rw [wrapInt64_eq_self (g - r) (by omega) (by omega)]
    exact abs_eq_int_abs (g - r) (by omega) (by omega)
  refine ⟨hdelta, ?_, ?_, ?_, ?_, ?_, ?_⟩
  · rw [hdelta]
    exact abs_nonneg _
  · decide
  · decide
  · decide
  · decide
  · decide

/-- C8 witness: the theorem instantiated at the scenario durations. -/
theorem c8_duration_delta_and_scenario_witness :
    EnhancedHybrid.durationDeltaMs 553 115 = |(553 : Int) - 115| ∧
    0 ≤ EnhancedHybrid.durationDeltaMs 553 115 ∧
    EnhancedHybrid.durationDeltaMs primaryRecordC8.durationMs
      telemetryRecordC8.durationMs = 438 ∧
    EnhancedHybrid.rowCountAgreement primaryRecordC8 telemetryRecordC8
      = true ∧
    EnhancedHybrid.columnCountAgreement primaryRecordC8 telemetryRecordC8
      = true ∧
    (HybridTiming.executeHybridLookupPhase "qid-c8" respFoundC8).attempts.length
      = 1 ∧
    HybridTiming.hybridCorrelationSucceeded
      (HybridTiming.executeHybridLookupPhase "qid-c8" respFoundC8) = true :=
  c8_duration_delta_and_scenario 553 115 (by decide) (by decide) (by decide)
    (by decide)

/-- C9 counterexample: in the testUndocumentedAPI flow the rows are drained
(and closed) before executionTime is recorded, so observed_end is not
recorded before the result set is drained — the universal claim fails for
this primary execution path. -/
theorem c9_observed_end_after_drain_ce :
    eventIndex .handleReturned QueryTiming.queryTimingTrace
      < eventIndex .drainRows QueryTiming.queryTimingTrace ∧
    eventIndex .drainRows QueryTiming.queryTimingTrace
      < eventIndex .captureEnd QueryTiming.queryTimingTrace := by
  decide

/-- C9 (amended): in the enhanced_hybrid and hybrid_timing flows,
observed_start is recorded immediately before submission and observed_end
immediately after the call returning the result handle, before any row is
drained; the query_timing flow instead records observed_end only after the
full drain and close. -/
theorem c9_timestamp_placement :
    (eventIndex .captureStart EnhancedHybrid.goDriverTrace + 1
      = eventIndex .submitQuery EnhancedHybrid.goDriverTrace) ∧
    (eventIndex .handleReturned EnhancedHybrid.goDriverTrace + 1
      = eventIndex .captureEnd EnhancedHybrid.goDriverTrace) ∧
    (eventIndex .captureEnd EnhancedHybrid.goDriverTrace
      < eventIndex .drainRows EnhancedHybrid.goDriverTrace) ∧
    (eventIndex .captureStart HybridTiming.goDriverTrace + 1
      = eventIndex .submitQuery HybridTiming.goDriverTrace) ∧
    (eventIndex .handleReturned HybridTiming.goDriverTrace + 1
      = eventIndex .captureEnd HybridTiming.goDriverTrace) ∧
    (eventIndex .captureEnd HybridTiming.goDriverTrace
      < eventIndex .drainRows HybridTiming.goDriverTrace) ∧
    (eventIndex .captureStart QueryTiming.queryTimingTrace + 1
      = eventIndex .submitQuery QueryTiming.queryTimingTrace) ∧
    (eventIndex .drainRows QueryTiming.queryTimingTrace
      < eventIndex .captureEnd QueryTiming.queryTimingTrace) := by
  decide

/-- C10: for every int64 input strictly greater than int64Min, the
embedded abs is non-negative and equals the mathematical absolute value;
at int64Min the two's-complement negation wraps and abs returns int64Min
itself, a negative value. -/
theorem c10_abs_int64_behavior (x : Int)
    (hlo : GoInt.int64Min < x) (hhi : x ≤ GoInt.int64Max) :
    0 ≤ EnhancedHybrid.abs x ∧
    EnhancedHybrid.abs x = |x| ∧
    EnhancedHybrid.abs GoInt.int64Min = GoInt.int64Min ∧
    EnhancedHybrid.abs GoInt.int64Min < 0 := by
  simp only [GoInt.int64Min, GoInt.int64Max] at hlo hhi
  have habs : EnhancedHybrid.abs x = |x| :=
    abs_eq_int_abs x (by omega) (by omega)
  refine ⟨?_, habs, by decide, by decide⟩
  rw [habs]
  exact abs_nonneg x

/-- C10 witness: the theorem instantiated at a negative in-range input. -/
theorem c10_abs_int64_behavior_witness :
    0 ≤ EnhancedHybrid.abs (-5) ∧
    EnhancedHybrid.abs (-5) = |(-5 : Int)| ∧
    EnhancedHybrid.abs GoInt.int64Min = GoInt.int64Min ∧
    EnhancedHybrid.abs GoInt.int64Min < 0 :=
  c10_abs_int64_behavior (-5) (by decide) (by decide)
